import Mathlib

/-!
Shallow embedding of the Express + PostgreSQL backend in `server.js`
(the current version of the file: companies / products / monitoring_configs
with the full Shopify product schema).

The relational store is modelled as an explicit state value `DB` holding the
rows of the three tables together with the serial-id counters.  Each HTTP
handler becomes a pure function from a request body (plus the current
timestamp, standing for `NOW()` / `new Date()`) and a `DB` to a response and
the resulting `DB`.  A handler that rolls back returns the input `DB`
unchanged.  Timestamps are plain strings; JavaScript `x || y` defaulting is
modelled on `Option` values with `0` and `""` as the falsy inhabitants of
numbers and strings.

PostgreSQL error classes that the code distinguishes (via `err.code`) are
modelled by `PgErr`: `uniqueViolation` is code 23505; every other failure
the embedded statements can raise (NOT NULL 23502, foreign key 23503) is a
distinct constructor, so "any other error" is expressible.
-/

/-- JavaScript falsiness of an optional number: `undefined`/`null` and `0`. -/
def intFalsy : Option Int → Bool
  | none => true
  | some n => n == 0

/-- JavaScript falsiness of an optional string: `undefined`/`null` and `""`. -/
def strFalsy : Option String → Bool
  | none => true
  | some s => s == ""

/-- JavaScript `x || null` on numbers: falsy values collapse to SQL NULL. -/
def orNullInt (x : Option Int) : Option Int :=
  if intFalsy x then none else x

/-- JavaScript `x || null` on strings: falsy values collapse to SQL NULL. -/
def orNullStr (x : Option String) : Option String :=
  if strFalsy x then none else x

/-- JavaScript `x || d` on strings (used for `first_seen || new Date()`). -/
def orElseStr (x : Option String) (d : String) : String :=
  match x with
  | none => d
  | some s => if s == "" then d else s

/-- JavaScript `x || d` on numbers (used for `days_back || 7`). -/
def orElseInt (x : Option Int) (d : Int) : Int :=
  match x with
  | none => d
  | some n => if n == 0 then d else n

/-- JavaScript `x !== undefined ? x : d` on booleans. -/
def orUndefBool (x : Option Bool) (d : Bool) : Bool :=
  match x with
  | none => d
  | some b => b

/-- PostgreSQL error classes raised by the embedded statements.
`uniqueViolation` is the class the code tests for (`err.code === "23505"`). -/
inductive PgErr where
  | uniqueViolation
  | notNullViolation
  | fkViolation
deriving DecidableEq

/-- A row of the `companies` table (schema from `/api/setup-database`). -/
structure CompanyRow where
  id : Int
  name : String
  url : Option String := none
  domain : Option String := none
  industry : Option String := none
  description : Option String := none
  is_active : Option Bool := some true
  created_at : String := ""
  updated_at : String := ""
deriving DecidableEq

/-- A row of the `products` table (full Shopify schema). -/
structure ProdRow where
  id : Int
  company_id : Option Int
  shopify_product_id : Option Int
  title : String
  handle : Option String := none
  product_type : Option String := none
  vendor : Option String := none
  price : Option Int := none
  created_at_shopify : Option String := none
  days_old_when_found : Option Int := none
  product_url : Option String := none
  main_image_url : Option String := none
  tags : Option String := none
  first_seen : String := ""
  last_seen : String := ""
  is_new_product : Bool := true
  created_at : String := ""
deriving DecidableEq

/-- A row of the `monitoring_configs` table. -/
structure ConfigRow where
  id : Int
  company_id : Int
  days_back : Int := 7
  max_products : Int := 50
  check_frequency : String := "weekly"
  is_enabled : Bool := true
  last_monitored : Option String := none
  created_at : String := ""
  updated_at : String := ""
deriving DecidableEq

/-- The database state: the rows of the three tables plus serial counters. -/
structure DB where
  companies : List CompanyRow := []
  products : List ProdRow := []
  configs : List ConfigRow := []
  nextCompanyId : Int := 1
  nextProductId : Int := 1
  nextConfigId : Int := 1
deriving DecidableEq

/-- Request body for a single product (POST /api/products and each element of
POST /api/products/bulk).  `none` is an absent (`undefined`) field. -/
structure ProductReq where
  company_id : Option Int := none
  shopify_product_id : Option Int := none
  title : Option String := none
  handle : Option String := none
  product_type : Option String := none
  vendor : Option String := none
  price : Option Int := none
  created_at_shopify : Option String := none
  days_old_when_found : Option Int := none
  product_url : Option String := none
  main_image_url : Option String := none
  tags : Option String := none
  first_seen : Option String := none
  last_seen : Option String := none
  is_new_product : Option Bool := none
deriving DecidableEq

/-- The INSERT INTO products statement shared verbatim by POST /api/products
and the loop body of POST /api/products/bulk, with the same argument
defaulting (`|| null`, `|| new Date()`, `!== undefined ? _ : true`).
Failure modes, in the order PostgreSQL raises them: NOT NULL on `title`
(23502), the UNIQUE(company_id, shopify_product_id) constraint (23505, which
per SQL semantics never fires when either column is NULL), and the foreign
key on `company_id` (23503, which never fires on NULL). -/
def insertProduct (db : DB) (now : String) (p : ProductReq) :
    Except PgErr (ProdRow × DB) :=
  match p.title with
  | none => .error .notNullViolation
  | some t =>
    let cid := p.company_id
    let sid := orNullInt p.shopify_product_id
    let conflict :=
      match cid, sid with
      | some c, some s =>
          db.products.any (fun r =>
            r.company_id == some c && r.shopify_product_id == some s)
      | _, _ => false
    if conflict then .error .uniqueViolation
    else
      let fkBad :=
        match cid with
        | some c => !(db.companies.any (fun r => r.id == c))
        | none => false
      if fkBad then .error .fkViolation
      else
        let row : ProdRow :=
          { id := db.nextProductId
            company_id := cid
            shopify_product_id := sid
            title := t
            handle := orNullStr p.handle
            product_type := orNullStr p.product_type
            vendor := orNullStr p.vendor
            price := orNullInt p.price
            created_at_shopify := orNullStr p.created_at_shopify
            days_old_when_found := orNullInt p.days_old_when_found
            product_url := orNullStr p.product_url
            main_image_url := orNullStr p.main_image_url
            tags := orNullStr p.tags
            first_seen := orElseStr p.first_seen now
            last_seen := orElseStr p.last_seen now
            is_new_product := orUndefBool p.is_new_product true
            created_at := now }
        .ok (row, { db with
                      products := db.products ++ [row]
                      nextProductId := db.nextProductId + 1 })

/-- The per-record loop of POST /api/products/bulk: insert each product; a
unique-constraint violation (23505) records the product with reason
"Duplicate Shopify ID" in the skipped list and continues; any other error is
re-thrown and aborts the loop. -/
def bulkProductsLoop (now : String) :
    DB → List ProductReq →
    Except PgErr (DB × List ProdRow × List (ProductReq × String))
  | db, [] => .ok (db, [], [])
  | db, p :: rest =>
    match insertProduct db now p with
    | .ok (row, db1) =>
      match bulkProductsLoop now db1 rest with
      | .ok (db2, rows, sk) => .ok (db2, row :: rows, sk)
      | .error e => .error e
    | .error .uniqueViolation =>
      match bulkProductsLoop now db rest with
      | .ok (db2, rows, sk) => .ok (db2, rows, (p, "Duplicate Shopify ID") :: sk)
      | .error e => .error e
    | .error e => .error e

/-- Response of POST /api/products/bulk. -/
inductive BulkProductsResp where
  | badRequest
  | created (products : List ProdRow) (added : Nat) (skipped : Nat)
      (skippedProducts : List (ProductReq × String))
  | serverError
deriving DecidableEq

/-- HTTP status code of a bulk-products response. -/
def BulkProductsResp.status : BulkProductsResp → Nat
  | .badRequest => 400
  | .created _ _ _ _ => 201
  | .serverError => 500

/-- POST /api/products/bulk.  `body = none` models a missing or non-array
`products` field (400 before any store access).  On any re-thrown error the
transaction is rolled back: the returned `DB` is the input one. -/
def postProductsBulk (db : DB) (now : String) (body : Option (List ProductReq)) :
    BulkProductsResp × DB :=
  match body with
  | none => (.badRequest, db)
  | some products =>
    match bulkProductsLoop now db products with
    | .ok (db2, rows, sk) => (.created rows rows.length sk.length sk, db2)
    | .error _ => (.serverError, db)

/-- Response of POST /api/products (single insert). -/
inductive ProductResp where
  | badRequest
  | created (row : ProdRow)
  | conflict
  | serverError
deriving DecidableEq

/-- HTTP status code of a single-product response. -/
def ProductResp.status : ProductResp → Nat
  | .badRequest => 400
  | .created _ => 201
  | .conflict => 409
  | .serverError => 500

/-- POST /api/products: `if (!company_id || !title)` returns 400 before any
store access; otherwise the shared insert runs and a 23505 error code maps
to 409, any other error to 500. -/
def postProducts (db : DB) (now : String) (p : ProductReq) : ProductResp × DB :=
  if intFalsy p.company_id || strFalsy p.title then (.badRequest, db)
  else
    match insertProduct db now p with
    | .ok (row, db2) => (.created row, db2)
    | .error .uniqueViolation => (.conflict, db)
    | .error _ => (.serverError, db)

/-- Request body element for POST /api/companies/bulk. -/
structure CompanyReq where
  name : Option String := none
  url : Option String := none
  domain : Option String := none
  industry : Option String := none
  description : Option String := none
deriving DecidableEq

/-- The INSERT INTO companies statement of the bulk loop: `company.name` is
passed through unchanged (NULL when absent, violating NOT NULL), the other
fields get `|| null`, and `is_active` is the literal `true`.  The current
schema puts no UNIQUE constraint on `name`, so the only failure the
statement can raise is 23502 on a missing name. -/
def insertCompany (db : DB) (now : String) (c : CompanyReq) :
    Except PgErr (CompanyRow × DB) :=
  match c.name with
  | none => .error .notNullViolation
  | some n =>
    let row : CompanyRow :=
      { id := db.nextCompanyId
        name := n
        url := orNullStr c.url
        domain := orNullStr c.domain
        industry := orNullStr c.industry
        description := orNullStr c.description
        is_active := some true
        created_at := now
        updated_at := now }
    .ok (row, { db with
                  companies := db.companies ++ [row]
                  nextCompanyId := db.nextCompanyId + 1 })

/-- The loop of POST /api/companies/bulk: no per-record error handling, so
the first failing insert aborts the whole loop. -/
def bulkCompaniesLoop (now : String) :
    DB → List CompanyReq → Except PgErr (DB × List CompanyRow)
  | db, [] => .ok (db, [])
  | db, c :: rest =>
    match insertCompany db now c with
    | .ok (row, db1) =>
      match bulkCompaniesLoop now db1 rest with
      | .ok (db2, rows) => .ok (db2, row :: rows)
      | .error e => .error e
    | .error e => .error e

/-- Response of POST /api/companies/bulk. -/
inductive BulkCompaniesResp where
  | badRequest
  | created (companies : List CompanyRow) (count : Nat)
  | serverError
deriving DecidableEq

/-- HTTP status code of a bulk-companies response. -/
def BulkCompaniesResp.status : BulkCompaniesResp → Nat
  | .badRequest => 400
  | .created _ _ => 201
  | .serverError => 500

/-- POST /api/companies/bulk: 400 when `companies` is missing or not an
array; one transaction; any insert failure rolls the whole batch back
(returned `DB` is the input one) and answers 500; on success 201 with the
inserted rows and their count. -/
def postCompaniesBulk (db : DB) (now : String)
    (body : Option (List CompanyReq)) : BulkCompaniesResp × DB :=
  match body with
  | none => (.badRequest, db)
  | some cs =>
    match bulkCompaniesLoop now db cs with
    | .ok (db2, rows) => (.created rows rows.length, db2)
    | .error _ => (.serverError, db)

/-- Response of PATCH /api/companies/:id/status.  The handler has no
validation branch: its only outcomes are 200, 404 and the catch-all 500. -/
inductive PatchStatusResp where
  | ok (row : CompanyRow)
  | notFound
deriving DecidableEq

/-- HTTP status code of a status-patch response. -/
def PatchStatusResp.status : PatchStatusResp → Nat
  | .ok _ => 200
  | .notFound => 404

/-- PATCH /api/companies/:id/status: runs
UPDATE companies SET is_active = $1, updated_at = CURRENT_TIMESTAMP with no
presence check on `is_active` (an absent field is passed through as NULL);
404 when no row matched, otherwise 200 with the updated row. -/
def patchCompanyStatus (db : DB) (now : String) (id : Int)
    (is_active : Option Bool) : PatchStatusResp × DB :=
  let updated := db.companies.map (fun r =>
    if r.id == id then { r with is_active := is_active, updated_at := now }
    else r)
  match db.companies.find? (fun r => r.id == id) with
  | none => (.notFound, db)
  | some r =>
    (.ok { r with is_active := is_active, updated_at := now },
     { db with companies := updated })

/-- Request body of POST /api/monitoring-configs. -/
structure ConfigReq where
  company_id : Option Int := none
  days_back : Option Int := none
  max_products : Option Int := none
  check_frequency : Option String := none
  is_enabled : Option Bool := none
deriving DecidableEq

/-- Response of POST /api/monitoring-configs. -/
inductive ConfigResp where
  | badRequest
  | ok (row : ConfigRow)
  | serverError
deriving DecidableEq

/-- HTTP status code of a monitoring-config response. -/
def ConfigResp.status : ConfigResp → Nat
  | .badRequest => 400
  | .ok _ => 200
  | .serverError => 500

/-- POST /api/monitoring-configs: `if (!company_id)` gives 400; otherwise a
single INSERT ... ON CONFLICT (company_id) DO UPDATE statement with the
defaults applied in the parameter list (`days_back || 7`,
`max_products || 50`, `check_frequency || "weekly"`,
`is_enabled !== undefined ? is_enabled : true`), so both the insert arm and
the update arm receive the same defaulted values.  On the insert arm the
foreign key on `company_id` can fire (500); the update arm leaves
`company_id` unchanged and refreshes `updated_at`. -/
def postMonitoringConfigs (db : DB) (now : String) (req : ConfigReq) :
    ConfigResp × DB :=
  if intFalsy req.company_id then (.badRequest, db)
  else
    match req.company_id with
    | none => (.badRequest, db)
    | some cid =>
      let d := orElseInt req.days_back 7
      let m := orElseInt req.max_products 50
      let f := orElseStr req.check_frequency "weekly"
      let e := orUndefBool req.is_enabled true
      match db.configs.find? (fun r => r.company_id == cid) with
      | some r =>
        let row := { r with
                       days_back := d
                       max_products := m
                       check_frequency := f
                       is_enabled := e
                       updated_at := now }
        (.ok row,
         { db with configs := db.configs.map (fun x =>
             if x.company_id == cid then
               { x with
                   days_back := d
                   max_products := m
                   check_frequency := f
                   is_enabled := e
                   updated_at := now }
             else x) })
      | none =>
        if db.companies.any (fun c => c.id == cid) then
          let row : ConfigRow :=
            { id := db.nextConfigId
              company_id := cid
              days_back := d
              max_products := m
              check_frequency := f
              is_enabled := e
              last_monitored := none
              created_at := now
              updated_at := now }
          (.ok row, { db with
                        configs := db.configs ++ [row]
                        nextConfigId := db.nextConfigId + 1 })
        else (.serverError, db)

/-- Column list the bootstrap creates for `companies`. -/
def companiesColumns : List String :=
  ["id", "name", "url", "domain", "industry", "description", "is_active",
   "created_at", "updated_at"]

/-- Column list the bootstrap creates for `monitoring_configs`. -/
def monitoringColumns : List String :=
  ["id", "company_id", "days_back", "max_products", "check_frequency",
   "is_enabled", "last_monitored", "created_at", "updated_at"]

/-- Column list the bootstrap creates for `products`. -/
def productsColumns : List String :=
  ["id", "company_id", "shopify_product_id", "title", "handle",
   "product_type", "vendor", "price", "created_at_shopify",
   "days_old_when_found", "product_url", "main_image_url", "tags",
   "first_seen", "last_seen", "is_new_product", "created_at"]

/-- The four indexes created together with the products table. -/
def productIndexNames : List String :=
  ["idx_products_company_id", "idx_products_shopify_id",
   "idx_products_is_new", "idx_products_first_seen"]

/-- Identifier of the view definition the bootstrap installs with
CREATE OR REPLACE VIEW (the only view this application ever creates, so a
replace is always column-compatible and never errors). -/
def activeCompaniesViewDef : String :=
  "SELECT c.*, mc.days_back, mc.max_products, mc.check_frequency, mc.is_enabled as monitoring_enabled, mc.last_monitored FROM companies c LEFT JOIN monitoring_configs mc ON c.id = mc.company_id WHERE c.is_active = true AND (mc.is_enabled = true OR mc.is_enabled IS NULL)"

/-- Catalog-level schema state observed by /api/setup-database: for each
table, the column list information_schema reports (`none` when the table is
absent), plus the created indexes and the current definition of the
active_companies_for_monitoring view. -/
structure Schema where
  companiesTable : Option (List String) := none
  monitoringTable : Option (List String) := none
  productsTable : Option (List String) := none
  indexes : List String := []
  view : Option String := none
deriving DecidableEq

/-- Summary payload of a successful /api/setup-database call. -/
structure SetupResp where
  message : String
  companiesTable : String
  monitoringConfigsTable : String
  productsTable : String
  activeCompaniesView : String
  idx : String
deriving DecidableEq

/-- POST /api/setup-database: in one transaction, each table is looked up in
information_schema and created only when the lookup returns no columns; the
four product indexes are created only in the branch that creates the
products table; the view is installed with replace-if-exists semantics on
every call.  Every statement is guarded or replace-based, so the call always
commits and answers the fixed success summary. -/
def setupDatabase (s : Schema) : SetupResp × Schema :=
  let s1 := match s.companiesTable with
    | none => { s with companiesTable := some companiesColumns }
    | some _ => s
  let s2 := match s1.monitoringTable with
    | none => { s1 with monitoringTable := some monitoringColumns }
    | some _ => s1
  let s3 := match s2.productsTable with
    | none => { s2 with
                  productsTable := some productsColumns
                  indexes := s2.indexes ++ productIndexNames }
    | some _ => s2
  let s4 := { s3 with view := some activeCompaniesViewDef }
  ({ message := "Database setup completed successfully"
     companiesTable := "Ready"
     monitoringConfigsTable := "Ready"
     productsTable := "Ready with full Shopify schema"
     activeCompaniesView := "Created"
     idx := "Created for better performance" }, s4)

/-- A schema state on which the bootstrap has nothing to do: all three
tables present and the view already at the installed definition. -/
def Schema.Correct (s : Schema) : Prop :=
  s.companiesTable.isSome ∧ s.monitoringTable.isSome ∧
    s.productsTable.isSome ∧ s.view = some activeCompaniesViewDef

/-- Decidable equality of `Except` results, for evaluating the embedded
operations on concrete inputs. -/
instance {e a : Type} [DecidableEq e] [DecidableEq a] :
    DecidableEq (Except e a) := fun x y =>
  match x, y with
  | .ok v, .ok w =>
    if h : v = w then .isTrue (by rw [h])
    else .isFalse (fun he => by cases he; exact h rfl)
  | .error v, .error w =>
    if h : v = w then .isTrue (by rw [h])
    else .isFalse (fun he => by cases he; exact h rfl)
  | .ok _, .error _ => .isFalse (fun he => by cases he)
  | .error _, .ok _ => .isFalse (fun he => by cases he)

/-- Accessor: added count reported by a bulk-products response. -/
def BulkProductsResp.addedCount : BulkProductsResp → Nat
  | .created _ a _ _ => a
  | _ => 0

/-- Accessor: skipped count reported by a bulk-products response. -/
def BulkProductsResp.skippedCount : BulkProductsResp → Nat
  | .created _ _ k _ => k
  | _ => 0

/-- Accessor: skipped records (with reasons) of a bulk-products response. -/
def BulkProductsResp.skippedList : BulkProductsResp → List (ProductReq × String)
  | .created _ _ _ sk => sk
  | _ => []

/-- Accessor: accepted rows of a bulk-products response. -/
def BulkProductsResp.rowsList : BulkProductsResp → List ProdRow
  | .created rows _ _ _ => rows
  | _ => []

/-- An existing company with id 1, used in concrete scenarios. -/
def acmeCompany : CompanyRow :=
  { id := 1, name := "Acme", created_at := "t0", updated_at := "t0" }

/-- A database holding just company 1. -/
def exDB : DB := { companies := [acmeCompany], nextCompanyId := 2 }

/-- First product of the duplicate pair: company 1, Shopify id 555. -/
def exP1 : ProductReq :=
  { company_id := some 1, shopify_product_id := some 555,
    title := some "Widget A" }

/-- Second product of the duplicate pair: same company 1 and Shopify id 555. -/
def exP2 : ProductReq :=
  { company_id := some 1, shopify_product_id := some 555,
    title := some "Widget B" }

/-- A product with no external Shopify id. -/
def exNoSid : ProductReq :=
  { company_id := some 1, title := some "No External Id" }

/-- A product with no title (NOT NULL violation on insert). -/
def exNoTitle : ProductReq :=
  { company_id := some 1, shopify_product_id := some 777 }

/-- The row produced by inserting `exP1` into `exDB` at time "t1". -/
def exRow555 : ProdRow :=
  { id := 1, company_id := some 1, shopify_product_id := some 555,
    title := "Widget A", first_seen := "t1", last_seen := "t1",
    is_new_product := true, created_at := "t1" }

/-- `exDB` after `exP1` has been inserted at time "t1". -/
def exDB1 : DB :=
  { companies := [acmeCompany], products := [exRow555],
    nextCompanyId := 2, nextProductId := 2 }

/-- The row produced by inserting `exNoSid` into `exDB` at time "t1":
its shopify_product_id is SQL NULL. -/
def exRowNoSid : ProdRow :=
  { id := 1, company_id := some 1, shopify_product_id := none,
    title := "No External Id", first_seen := "t1", last_seen := "t1",
    is_new_product := true, created_at := "t1" }

/-- `exDB` after `exNoSid` has been inserted at time "t1". -/
def exDBNoSid : DB :=
  { companies := [acmeCompany], products := [exRowNoSid],
    nextCompanyId := 2, nextProductId := 2 }

/-- A bulk-companies record carrying a name. -/
def coNamed : CompanyReq := { name := some "NewCo" }

/-- A bulk-companies record without a name (NOT NULL violation on insert). -/
def coNoName : CompanyReq := { url := some "https://nameless.example" }

/-- A validated product request whose company does not exist (foreign-key
violation on insert). -/
def exBadFk : ProductReq := { company_id := some 99, title := some "Orphan" }

/-- A monitoring-config save for company 1 with every tuning field omitted. -/
def cfgOmit : ConfigReq := { company_id := some 1 }

/-- A second monitoring-config save for company 1 with explicit values. -/
def cfgSecond : ConfigReq :=
  { company_id := some 1, days_back := some 14, max_products := some 100,
    check_frequency := some "daily", is_enabled := some false }

/-- A monitoring-config save for company 1 with falsy explicit values. -/
def cfgFalsy : ConfigReq :=
  { company_id := some 1, days_back := some 0, max_products := some 0,
    check_frequency := some "", is_enabled := some false }

/-- A stored monitoring-config row with non-default values. -/
def cfgRow9 : ConfigRow :=
  { id := 1, company_id := 1, days_back := 9, max_products := 99,
    check_frequency := "daily", is_enabled := false,
    created_at := "t1", updated_at := "t1" }

/-- `exDB` holding `cfgRow9` for company 1. -/
def cfgDB9 : DB :=
  { companies := [acmeCompany], configs := [cfgRow9],
    nextCompanyId := 2, nextConfigId := 2 }

/-- The monitoring-config row inserted when every tuning field is omitted:
all defaults (7, 50, "weekly", true). -/
def mcDefaultRow (id c : Int) (now : String) : ConfigRow :=
  { id := id, company_id := c, days_back := 7, max_products := 50,
    check_frequency := "weekly", is_enabled := true, last_monitored := none,
    created_at := now, updated_at := now }

/-- A schema on which everything the bootstrap manages is already present. -/
def fullSchema : Schema :=
  { companiesTable := some companiesColumns
    monitoringTable := some monitoringColumns
    productsTable := some productsColumns
    indexes := productIndexNames
    view := some activeCompaniesViewDef }

theorem insertProduct_ok_products (db : DB) (now : String) (p : ProductReq)
    (row : ProdRow) (db2 : DB) (h : insertProduct db now p = .ok (row, db2)) :
    db2.products = db.products ++ [row] ∧ row.company_id = p.company_id ∧
      row.shopify_product_id = orNullInt p.shopify_product_id := by
  simp only [insertProduct] at h
  split at h
  · exact absurd h (by simp)
  · split at h
    · exact absurd h (by simp)
    · split at h
      · exact absurd h (by simp)
      · simp only [Except.ok.injEq, Prod.mk.injEq] at h
        obtain ⟨hrow, hdb⟩ := h
        subst hrow hdb
        exact ⟨rfl, rfl, rfl⟩

theorem insertProduct_conflict (db : DB) (now : String) (p : ProductReq)
    (t : String) (c s : Int) (ht : p.title = some t)
    (hc : p.company_id = some c)
    (hs : orNullInt p.shopify_product_id = some s)
    (hmem : ∃ r ∈ db.products,
      r.company_id = some c ∧ r.shopify_product_id = some s) :
    insertProduct db now p = .error .uniqueViolation := by
  obtain ⟨r, hr, hrc, hrs⟩ := hmem
  simp only [insertProduct, ht, hc, hs]
  have hany : db.products.any (fun r =>
      r.company_id == some c && r.shopify_product_id == some s) = true := by
    simp only [List.any_eq_true]
    exact ⟨r, hr, by simp [hrc, hrs]⟩
  simp [hany]

theorem insertProduct_title_none (db : DB) (now : String) (p : ProductReq)
    (h : p.title = none) : insertProduct db now p = .error .notNullViolation := by
  simp [insertProduct, h]

theorem bulkProductsLoop_reasons (now : String) (ps : List ProductReq) :
    ∀ db db2 rows sk, bulkProductsLoop now db ps = .ok (db2, rows, sk) →
      ∀ q ∈ sk, q.2 = "Duplicate Shopify ID" := by
  induction ps with
  | nil =>
    intro db db2 rows sk h q hq
    simp only [bulkProductsLoop, Except.ok.injEq, Prod.mk.injEq] at h
    obtain ⟨-, -, hsk⟩ := h
    subst hsk
    simp at hq
  | cons p rest ih =>
    intro db db2 rows sk h q hq
    simp only [bulkProductsLoop] at h
    split at h
    · rename_i row db1 heq
      split at h
      · rename_i db2x rowsx skx hrec
        simp only [Except.ok.injEq, Prod.mk.injEq] at h
        obtain ⟨-, -, hsk⟩ := h
        subst hsk
        exact ih db1 db2x rowsx skx hrec q hq
      · exact absurd h (by simp)
    · rename_i heq
      split at h
      · rename_i db2x rowsx skx hrec
        simp only [Except.ok.injEq, Prod.mk.injEq] at h
        obtain ⟨-, -, hsk⟩ := h
        subst hsk
        rcases List.mem_cons.mp hq with hq1 | hq2
        · subst hq1; rfl
        · exact ih db db2x rowsx skx hrec q hq2
      · exact absurd h (by simp)
    · exact absurd h (by simp)

theorem bulkProductsLoop_counts (now : String) (ps : List ProductReq) :
    ∀ db db2 rows sk, bulkProductsLoop now db ps = .ok (db2, rows, sk) →
      rows.length + sk.length = ps.length := by
  induction ps with
  | nil =>
    intro db db2 rows sk h
    simp only [bulkProductsLoop, Except.ok.injEq, Prod.mk.injEq] at h
    obtain ⟨-, hr, hsk⟩ := h
    subst hr hsk
    rfl
  | cons p rest ih =>
    intro db db2 rows sk h
    simp only [bulkProductsLoop] at h
    split at h
    · rename_i row db1 heq
      split at h
      · rename_i db2x rowsx skx hrec
        simp only [Except.ok.injEq, Prod.mk.injEq] at h
        obtain ⟨-, hr, hsk⟩ := h
        subst hr hsk
        have := ih db1 db2x rowsx skx hrec
        simp only [List.length_cons]
        omega
      · exact absurd h (by simp)
    · rename_i heq
      split at h
      · rename_i db2x rowsx skx hrec
        simp only [Except.ok.injEq, Prod.mk.injEq] at h
        obtain ⟨-, hr, hsk⟩ := h
        subst hr hsk
        have := ih db db2x rowsx skx hrec
        simp only [List.length_cons]
        omega
      · exact absurd h (by simp)
    · exact absurd h (by simp)

theorem bulkProductsLoop_skipped_sublist (now : String) (ps : List ProductReq) :
    ∀ db db2 rows sk, bulkProductsLoop now db ps = .ok (db2, rows, sk) →
      List.Sublist (sk.map Prod.fst) ps := by
  induction ps with
  | nil =>
    intro db db2 rows sk h
    simp only [bulkProductsLoop, Except.ok.injEq, Prod.mk.injEq] at h
    obtain ⟨-, -, hsk⟩ := h
    subst hsk
    simp
  | cons p rest ih =>
    intro db db2 rows sk h
    simp only [bulkProductsLoop] at h
    split at h
    · rename_i row db1 heq
      split at h
      · rename_i db2x rowsx skx hrec
        simp only [Except.ok.injEq, Prod.mk.injEq] at h
        obtain ⟨-, -, hsk⟩ := h
        subst hsk
        exact List.Sublist.cons p (ih db1 db2x rowsx skx hrec)
      · exact absurd h (by simp)
    · rename_i heq
      split at h
      · rename_i db2x rowsx skx hrec
        simp only [Except.ok.injEq, Prod.mk.injEq] at h
        obtain ⟨-, -, hsk⟩ := h
        subst hsk
        simpa using List.Sublist.cons₂ p (ih db db2x rowsx skx hrec)
      · exact absurd h (by simp)
    · exact absurd h (by simp)

theorem bulkProductsLoop_mono (now : String) (ps : List ProductReq) :
    ∀ db db2 rows sk, bulkProductsLoop now db ps = .ok (db2, rows, sk) →
      ∀ r ∈ db.products, r ∈ db2.products := by
  induction ps with
  | nil =>
    intro db db2 rows sk h r hr
    simp only [bulkProductsLoop, Except.ok.injEq, Prod.mk.injEq] at h
    obtain ⟨hdb, -, -⟩ := h
    subst hdb
    exact hr
  | cons p rest ih =>
    intro db db2 rows sk h r hr
    simp only [bulkProductsLoop] at h
    split at h
    · rename_i row db1 heq
      split at h
      · rename_i db2x rowsx skx hrec
        simp only [Except.ok.injEq, Prod.mk.injEq] at h
        obtain ⟨hdb, -, -⟩ := h
        subst hdb
        have hp := (insertProduct_ok_products db now p row db1 heq).1
        exact ih db1 db2x rowsx skx hrec r (by rw [hp]; exact List.mem_append_left _ hr)
      · exact absurd h (by simp)
    · rename_i heq
      split at h
      · rename_i db2x rowsx skx hrec
        simp only [Except.ok.injEq, Prod.mk.injEq] at h
        obtain ⟨hdb, -, -⟩ := h
        subst hdb
        exact ih db db2x rowsx skx hrec r hr
      · exact absurd h (by simp)
    · exact absurd h (by simp)

theorem bulkProductsLoop_titles (now : String) (ps : List ProductReq) :
    ∀ db db2 rows sk, bulkProductsLoop now db ps = .ok (db2, rows, sk) →
      ∀ p ∈ ps, p.title.isSome := by
  induction ps with
  | nil =>
    intro db db2 rows sk h p hp
    simp at hp
  | cons p rest ih =>
    intro db db2 rows sk h q hq
    simp only [bulkProductsLoop] at h
    split at h
    · rename_i row db1 heq
      split at h
      · rename_i db2x rowsx skx hrec
        rcases List.mem_cons.mp hq with hq1 | hq2
        · subst hq1
          cases hp : q.title with
          | none => rw [insertProduct_title_none db now q hp] at heq; exact absurd heq (by simp)
          | some t => simp
        · exact ih db1 db2x rowsx skx hrec q hq2
      · exact absurd h (by simp)
    · rename_i heq
      split at h
      · rename_i db2x rowsx skx hrec
        rcases List.mem_cons.mp hq with hq1 | hq2
        · subst hq1
          cases hp : q.title with
          | none => rw [insertProduct_title_none db now q hp] at heq; exact absurd heq (by simp)
          | some t => simp
        · exact ih db db2x rowsx skx hrec q hq2
      · exact absurd h (by simp)
    · exact absurd h (by simp)

theorem insertProduct_unique_inv (db : DB) (now : String) (p : ProductReq)
    (h : insertProduct db now p = .error .uniqueViolation) (c s : Int)
    (hc : p.company_id = some c)
    (hs : orNullInt p.shopify_product_id = some s) :
    ∃ r ∈ db.products, r.company_id = some c ∧ r.shopify_product_id = some s := by
  simp only [insertProduct, hc, hs] at h
  split at h
  · exact absurd h (by simp)
  · split at h
    · rename_i hconf
      simp only [List.any_eq_true, Bool.and_eq_true, beq_iff_eq] at hconf
      obtain ⟨r, hr, hrc, hrs⟩ := hconf
      exact ⟨r, hr, hrc, hrs⟩
    · split at h
      · exact absurd h (by simp)
      · exact absurd h (by simp)

theorem bulkProductsLoop_pairs (now : String) (ps : List ProductReq) :
    ∀ db db2 rows sk, bulkProductsLoop now db ps = .ok (db2, rows, sk) →
      ∀ p ∈ ps, ∀ c s, p.company_id = some c →
        orNullInt p.shopify_product_id = some s →
        ∃ r ∈ db2.products, r.company_id = some c ∧
          r.shopify_product_id = some s := by
  induction ps with
  | nil =>
    intro db db2 rows sk h p hp
    simp at hp
  | cons p rest ih =>
    intro db db2 rows sk h q hq c s hc hs
    simp only [bulkProductsLoop] at h
    split at h
    · rename_i row db1 heq
      split at h
      · rename_i db2x rowsx skx hrec
        simp only [Except.ok.injEq, Prod.mk.injEq] at h
        obtain ⟨hdb, -, -⟩ := h
        subst hdb
        rcases List.mem_cons.mp hq with hq1 | hq2
        · subst hq1
          obtain ⟨hp, hrc, hrs⟩ := insertProduct_ok_products db now q row db1 heq
          refine ⟨row, bulkProductsLoop_mono now rest db1 db2x rowsx skx hrec row ?_, ?_, ?_⟩
          · rw [hp]; exact List.mem_append_right _ (List.mem_singleton.mpr rfl)
          · rw [hrc, hc]
          · rw [hrs, hs]
        · exact ih db1 db2x rowsx skx hrec q hq2 c s hc hs
      · exact absurd h (by simp)
    · rename_i heq
      split at h
      · rename_i db2x rowsx skx hrec
        simp only [Except.ok.injEq, Prod.mk.injEq] at h
        obtain ⟨hdb, -, -⟩ := h
        subst hdb
        rcases List.mem_cons.mp hq with hq1 | hq2
        · subst hq1
          obtain ⟨r, hr, hrc, hrs⟩ := insertProduct_unique_inv db now q heq c s hc hs
          exact ⟨r, bulkProductsLoop_mono now rest db db2x rowsx skx hrec r hr, hrc, hrs⟩
        · exact ih db db2x rowsx skx hrec q hq2 c s hc hs
      · exact absurd h (by simp)
    · exact absurd h (by simp)

theorem bulkProductsLoop_allDup (now : String) (ps : List ProductReq) :
    ∀ db, (∀ p ∈ ps, p.title.isSome ∧ ∃ c s, p.company_id = some c ∧
        orNullInt p.shopify_product_id = some s ∧
        ∃ r ∈ db.products, r.company_id = some c ∧
          r.shopify_product_id = some s) →
      bulkProductsLoop now db ps =
        .ok (db, [], ps.map (fun p => (p, "Duplicate Shopify ID"))) := by
  induction ps with
  | nil => intro db h; simp [bulkProductsLoop]
  | cons p rest ih =>
    intro db h
    obtain ⟨ht, c, s, hc, hs, hmem⟩ := h p (List.mem_cons_self p rest)
    obtain ⟨t, htt⟩ := Option.isSome_iff_exists.mp ht
    have hins := insertProduct_conflict db now p t c s htt hc hs hmem
    simp only [bulkProductsLoop, hins]
    rw [ih db (fun q hq => h q (List.mem_cons_of_mem p hq))]
    simp

theorem bulkProductsLoop_append (now : String) (l1 : List ProductReq) :
    ∀ db db1 rows sk (l2 : List ProductReq),
      bulkProductsLoop now db l1 = .ok (db1, rows, sk) →
      bulkProductsLoop now db (l1 ++ l2) =
        (bulkProductsLoop now db1 l2).map
          (fun x => (x.1, rows ++ x.2.1, sk ++ x.2.2)) := by
  induction l1 with
  | nil =>
    intro db db1 rows sk l2 h
    simp only [bulkProductsLoop, Except.ok.injEq, Prod.mk.injEq] at h
    obtain ⟨hdb, hr, hsk⟩ := h
    subst hdb hr hsk
    simp only [List.nil_append]
    cases bulkProductsLoop now db l2 <;> simp [Except.map]
  | cons p rest ih =>
    intro db db1 rows sk l2 h
    simp only [bulkProductsLoop] at h
    split at h
    · rename_i row db0 heq
      split at h
      · rename_i db2x rowsx skx hrec
        simp only [Except.ok.injEq, Prod.mk.injEq] at h
        obtain ⟨hdb, hr, hsk⟩ := h
        subst hdb hr hsk
        simp only [List.cons_append, bulkProductsLoop, heq]
        simp only [List.append_eq]
        rw [ih db0 _ rowsx skx l2 hrec]
        cases bulkProductsLoop now db2x l2 <;> simp [Except.map]
      · exact absurd h (by simp)
    · rename_i heq
      split at h
      · rename_i db2x rowsx skx hrec
        simp only [Except.ok.injEq, Prod.mk.injEq] at h
        obtain ⟨hdb, hr, hsk⟩ := h
        subst hdb hr hsk
        simp only [List.cons_append, bulkProductsLoop, heq]
        simp only [List.append_eq]
        rw [ih db _ rowsx skx l2 hrec]
        cases bulkProductsLoop now db2x l2 <;> simp [Except.map]
      · exact absurd h (by simp)
    · exact absurd h (by simp)

/-- C1: in bulk product ingestion, a record whose insert raises the
uniqueness violation on (company_id, shopify_product_id) is recorded in the
skipped collection with reason "Duplicate Shopify ID" and processing
continues with the next record; on success the response carries the
accepted rows, added = number accepted, skipped = number skipped, and the
skipped records with that reason; in particular two products sharing
company_id 1 and shopify_product_id 555 yield added = 1 and skipped = 1
with the one skipped entry carrying reason "Duplicate Shopify ID". -/
theorem bulk_products_duplicate_skipped :
    (∀ db now p rest, insertProduct db now p = .error .uniqueViolation →
        bulkProductsLoop now db (p :: rest) =
          (bulkProductsLoop now db rest).map
            (fun x => (x.1, x.2.1, (p, "Duplicate Shopify ID") :: x.2.2))) ∧
    (∀ db now ps db2 rows sk,
        bulkProductsLoop now db ps = .ok (db2, rows, sk) →
        postProductsBulk db now (some ps) =
          (.created rows rows.length sk.length sk, db2) ∧
        ∀ q ∈ sk, q.2 = "Duplicate Shopify ID") ∧
    ((postProductsBulk exDB "t1" (some [exP1, exP2])).1.addedCount = 1 ∧
     (postProductsBulk exDB "t1" (some [exP1, exP2])).1.skippedCount = 1 ∧
     (postProductsBulk exDB "t1"
        (some [exP1, exP2])).1.skippedList.map Prod.snd =
       ["Duplicate Shopify ID"]) := by
  refine ⟨?_, ?_, ?_⟩
  · intro db now p rest h
    simp only [bulkProductsLoop, h]
    cases bulkProductsLoop now db rest <;> simp [Except.map]
  · intro db now ps db2 rows sk h
    refine ⟨?_, bulkProductsLoop_reasons now ps db db2 rows sk h⟩
    simp [postProductsBulk, h]
  · refine ⟨by decide, by decide, by decide⟩

/-- Witness for C1 at the concrete duplicate pair. -/
theorem bulk_products_duplicate_skipped_witness :
    (bulkProductsLoop "t1" exDB1 [exP2] =
      (bulkProductsLoop "t1" exDB1 []).map
        (fun x => (x.1, x.2.1, (exP2, "Duplicate Shopify ID") :: x.2.2))) ∧
    (postProductsBulk exDB1 "t2" (some [exP2]) =
      (.created [] 0 1 [(exP2, "Duplicate Shopify ID")], exDB1) ∧
     ∀ q ∈ [(exP2, "Duplicate Shopify ID")], q.2 = "Duplicate Shopify ID") :=
  ⟨bulk_products_duplicate_skipped.1 exDB1 "t1" exP2 [] (by decide),
   bulk_products_duplicate_skipped.2.1 exDB1 "t2" [exP2] exDB1 []
     [(exP2, "Duplicate Shopify ID")] (by decide)⟩

/-- C8: a successfully completing bulk product ingestion partitions its
input: the reported added equals the number of accepted rows, the reported
skipped equals the number of skipped records, added + skipped equals the
number of submitted records, and the skipped records form a subsequence of
the submitted batch (every submitted record lands in exactly one of the two
lists). -/
theorem bulk_products_partition :
    ∀ db now ps resp db2, postProductsBulk db now (some ps) = (resp, db2) →
      ∀ rows a k sk, resp = .created rows a k sk →
        a = rows.length ∧ k = sk.length ∧ a + k = ps.length ∧
          List.Sublist (sk.map Prod.fst) ps := by
  intro db now ps resp db2 h rows a k sk hresp
  subst hresp
  simp only [postProductsBulk] at h
  split at h
  · rename_i db2x rowsx skx hrec
    simp only [Prod.mk.injEq, BulkProductsResp.created.injEq] at h
    obtain ⟨⟨hrows, ha, hk, hsk⟩, -⟩ := h
    subst hrows ha hk hsk
    exact ⟨rfl, rfl, bulkProductsLoop_counts now ps db db2x rowsx skx hrec,
      bulkProductsLoop_skipped_sublist now ps db db2x rowsx skx hrec⟩
  · simp at h

/-- Witness for C8 at the concrete duplicate pair. -/
theorem bulk_products_partition_witness :
    (postProductsBulk exDB "t1" (some [exP1, exP2])).1.addedCount =
        (postProductsBulk exDB "t1" (some [exP1, exP2])).1.rowsList.length ∧
      (postProductsBulk exDB "t1" (some [exP1, exP2])).1.skippedCount =
        (postProductsBulk exDB "t1" (some [exP1, exP2])).1.skippedList.length ∧
      (postProductsBulk exDB "t1" (some [exP1, exP2])).1.addedCount +
          (postProductsBulk exDB "t1" (some [exP1, exP2])).1.skippedCount =
        [exP1, exP2].length ∧
      List.Sublist
        ((postProductsBulk exDB "t1"
          (some [exP1, exP2])).1.skippedList.map Prod.fst)
        [exP1, exP2] :=
  bulk_products_partition exDB "t1" [exP1, exP2]
    (postProductsBulk exDB "t1" (some [exP1, exP2])).1
    (postProductsBulk exDB "t1" (some [exP1, exP2])).2 rfl
    (postProductsBulk exDB "t1" (some [exP1, exP2])).1.rowsList
    (postProductsBulk exDB "t1" (some [exP1, exP2])).1.addedCount
    (postProductsBulk exDB "t1" (some [exP1, exP2])).1.skippedCount
    (postProductsBulk exDB "t1" (some [exP1, exP2])).1.skippedList (by decide)

/-- C3: if any record of a bulk product ingestion batch fails with an error
that is not the uniqueness violation, the whole batch is aborted: the
endpoint answers 500 and the transaction is rolled back, so no record of
the batch is committed (the store is left exactly as it was); conversely a
500 answer always leaves the store unchanged. -/
theorem bulk_products_fatal_abort :
    (∀ db now l1 (p : ProductReq) l2 db1 rows sk e,
        bulkProductsLoop now db l1 = .ok (db1, rows, sk) →
        insertProduct db1 now p = .error e → e ≠ .uniqueViolation →
        postProductsBulk db now (some (l1 ++ p :: l2)) = (.serverError, db)) ∧
    (∀ db now ps db2, postProductsBulk db now (some ps) = (.serverError, db2) →
        db2 = db) := by
  constructor
  · intro db now l1 p l2 db1 rows sk e h1 h2 hne
    have happ := bulkProductsLoop_append now l1 db db1 rows sk (p :: l2) h1
    have hhead : bulkProductsLoop now db1 (p :: l2) = .error e := by
      cases e with
      | uniqueViolation => exact absurd rfl hne
      | notNullViolation => simp [bulkProductsLoop, h2]
      | fkViolation => simp [bulkProductsLoop, h2]
    rw [hhead] at happ
    simp only [Except.map] at happ
    simp [postProductsBulk, happ]
  · intro db now ps db2 h
    simp only [postProductsBulk] at h
    split at h
    · simp at h
    · simp only [Prod.mk.injEq] at h
      exact h.2.symm

/-- Witness for C3: a batch whose second record lacks a title is aborted
and rolled back with a 500. -/
theorem bulk_products_fatal_abort_witness :
    postProductsBulk exDB "t1" (some ([exP1] ++ exNoTitle :: [])) =
        (.serverError, exDB) ∧
      exDB = exDB :=
  ⟨bulk_products_fatal_abort.1 exDB "t1" [exP1] exNoTitle [] exDB1 [exRow555]
      [] .notNullViolation (by decide) (by decide) (by decide),
   bulk_products_fatal_abort.2 exDB "t1" [exP1, exNoTitle] exDB (by decide)⟩

/-- Counterexample to C2 as stated: a batch whose single record has no
shopify_product_id is fully accepted again on resubmission (the
(company_id, shopify_product_id) uniqueness constraint never fires on SQL
NULL), so the second response reports skipped = 0 instead of the batch size
1, and a second content-identical product row is created. -/
theorem bulk_products_idempotent_cex :
    (postProductsBulk exDB "t1" (some [exNoSid])).2 = exDBNoSid ∧
    (postProductsBulk exDB "t1" (some [exNoSid])).1.status = 201 ∧
    (postProductsBulk exDBNoSid "t2" (some [exNoSid])).1.status = 201 ∧
    (postProductsBulk exDBNoSid "t2" (some [exNoSid])).1.skippedCount = 0 ∧
    (postProductsBulk exDBNoSid "t2" (some [exNoSid])).1.addedCount = 1 ∧
    (postProductsBulk exDBNoSid "t2" (some [exNoSid])).2.products.length = 2 ∧
    ¬ (postProductsBulk exDBNoSid "t2"
        (some [exNoSid])).1.skippedCount = [exNoSid].length := by
  refine ⟨by decide, by decide, by decide, by decide, by decide, by decide,
    by decide⟩

/-- C2 amended: bulk product ingestion is idempotent for every batch whose
records all carry a company_id and a non-null shopify_product_id: after a
successful first submission, resubmitting the same batch skips every
record (each with reason "Duplicate Shopify ID"), reports skipped equal to
the batch size and added 0, and leaves the store unchanged (zero duplicate
rows). -/
theorem bulk_products_idempotent_nonnull_sid :
    ∀ db now1 now2 ps rows a k sk db1,
      postProductsBulk db now1 (some ps) = (.created rows a k sk, db1) →
      (∀ p ∈ ps, p.company_id ≠ none ∧
        orNullInt p.shopify_product_id ≠ none) →
      postProductsBulk db1 now2 (some ps) =
        (.created [] 0 ps.length
          (ps.map (fun p => (p, "Duplicate Shopify ID"))), db1) := by
  intro db now1 now2 ps rows a k sk db1 h hps
  simp only [postProductsBulk] at h
  split at h
  · rename_i db2x rowsx skx hrec
    simp only [Prod.mk.injEq, BulkProductsResp.created.injEq] at h
    obtain ⟨-, hdb⟩ := h
    have hall : ∀ p ∈ ps, p.title.isSome ∧ ∃ c s, p.company_id = some c ∧
        orNullInt p.shopify_product_id = some s ∧
        ∃ r ∈ db2x.products, r.company_id = some c ∧
          r.shopify_product_id = some s := by
      intro p hp
      obtain ⟨hc, hs⟩ := hps p hp
      obtain ⟨c, hc⟩ := Option.ne_none_iff_exists'.mp hc
      obtain ⟨s, hs⟩ := Option.ne_none_iff_exists'.mp hs
      exact ⟨bulkProductsLoop_titles now1 ps db db2x rowsx skx hrec p hp,
        c, s, hc, hs,
        bulkProductsLoop_pairs now1 ps db db2x rowsx skx hrec p hp c s hc hs⟩
    have hloop := bulkProductsLoop_allDup now2 ps db2x hall
    rw [← hdb]
    simp [postProductsBulk, hloop]
  · simp at h

/-- Witness for the amended C2 at the concrete duplicate pair. -/
theorem bulk_products_idempotent_nonnull_sid_witness :
    postProductsBulk exDB1 "t2" (some [exP1, exP2]) =
      (.created [] 0 [exP1, exP2].length
        ([exP1, exP2].map (fun p => (p, "Duplicate Shopify ID"))), exDB1) :=
  bulk_products_idempotent_nonnull_sid exDB "t1" "t2" [exP1, exP2]
    [exRow555] 1 1 [(exP2, "Duplicate Shopify ID")] exDB1 (by decide)
    (by decide)

theorem insertCompany_ok (db : DB) (now : String) (c : CompanyReq)
    (n : String) (hn : c.name = some n) :
    ∃ row db1, insertCompany db now c = .ok (row, db1) ∧
      db1.companies = db.companies ++ [row] := by
  simp only [insertCompany, hn]
  exact ⟨_, _, rfl, rfl⟩

theorem bulkCompaniesLoop_ok (now : String) (cs : List CompanyReq) :
    ∀ db, (∀ c ∈ cs, c.name ≠ none) →
      ∃ rows db2, bulkCompaniesLoop now db cs = .ok (db2, rows) ∧
        rows.length = cs.length ∧ db2.companies = db.companies ++ rows := by
  induction cs with
  | nil =>
    intro db _
    exact ⟨[], db, rfl, rfl, by simp⟩
  | cons c rest ih =>
    intro db h
    obtain ⟨n, hn⟩ :=
      Option.ne_none_iff_exists'.mp (h c (List.mem_cons_self c rest))
    obtain ⟨row, db1, hins, hcomp1⟩ := insertCompany_ok db now c n hn
    obtain ⟨rows, db2, hloop, hlen, hcomp⟩ :=
      ih db1 (fun q hq => h q (List.mem_cons_of_mem c hq))
    refine ⟨row :: rows, db2, ?_, by simp [hlen], ?_⟩
    · simp only [bulkCompaniesLoop, hins, hloop]
    · rw [hcomp, hcomp1]
      simp

theorem bulkCompaniesLoop_err (now : String) (cs : List CompanyReq) :
    ∀ db, (∃ c ∈ cs, c.name = none) →
      bulkCompaniesLoop now db cs = .error .notNullViolation := by
  induction cs with
  | nil =>
    intro db h
    simp at h
  | cons c rest ih =>
    intro db h
    cases hn : c.name with
    | none => simp only [bulkCompaniesLoop, insertCompany, hn]
    | some n =>
      obtain ⟨q, hq, hqn⟩ := h
      rcases List.mem_cons.mp hq with hq1 | hq2
      · subst hq1; rw [hn] at hqn; cases hqn
      · simp only [bulkCompaniesLoop, insertCompany, hn]
        rw [ih _ ⟨q, hq2, hqn⟩]

/-- C6: bulk company ingestion requires each record to carry a name (a
record without one makes its insert fail), runs in one transaction, and any
single insert failure aborts and rolls the whole batch back with a 500 and
no per-record tolerance; a missing or non-array body gives 400; on success
the endpoint answers 201 with the inserted companies and their count. -/
theorem bulk_companies_all_or_nothing :
    (∀ db now, postCompaniesBulk db now none = (.badRequest, db)) ∧
    (∀ db now cs, (∃ c ∈ cs, c.name = none) →
        postCompaniesBulk db now (some cs) = (.serverError, db)) ∧
    (∀ db now cs, (∀ c ∈ cs, c.name ≠ none) →
        ∃ rows db2, postCompaniesBulk db now (some cs) =
            (.created rows cs.length, db2) ∧
          rows.length = cs.length ∧
          db2.companies = db.companies ++ rows) := by
  refine ⟨fun db now => rfl, ?_, ?_⟩
  · intro db now cs h
    simp [postCompaniesBulk, bulkCompaniesLoop_err now cs db h]
  · intro db now cs h
    obtain ⟨rows, db2, hloop, hlen, hcomp⟩ := bulkCompaniesLoop_ok now cs db h
    exact ⟨rows, db2, by simp [postCompaniesBulk, hloop, hlen], hlen, hcomp⟩

/-- Witness for C6: a nameless record poisons the whole batch; an all-named
batch is committed with its count. -/
theorem bulk_companies_all_or_nothing_witness :
    postCompaniesBulk exDB "t1" none = (.badRequest, exDB) ∧
    postCompaniesBulk exDB "t1" (some [coNamed, coNoName]) =
      (.serverError, exDB) ∧
    ∃ rows db2, postCompaniesBulk exDB "t1" (some [coNamed]) =
        (.created rows [coNamed].length, db2) ∧
      rows.length = [coNamed].length ∧
      db2.companies = exDB.companies ++ rows :=
  ⟨bulk_companies_all_or_nothing.1 exDB "t1",
   bulk_companies_all_or_nothing.2.1 exDB "t1" [coNamed, coNoName]
     (by decide),
   bulk_companies_all_or_nothing.2.2 exDB "t1" [coNamed] (by decide)⟩

/-- C7: the single-product insert answers 400 with no store statement when
company_id or title is missing (the store state is untouched and the insert
is never attempted); when the insert runs and the store reports the
uniqueness violation on the external product identifier the answer is 409,
and any other store failure yields 500 — in both failure cases the store is
unchanged. -/
theorem single_product_statuses :
    (∀ db now p, p.company_id = none ∨ p.title = none →
        postProducts db now p = (.badRequest, db) ∧
        (postProducts db now p).1.status = 400) ∧
    (∀ db now p, intFalsy p.company_id = false → strFalsy p.title = false →
        insertProduct db now p = .error .uniqueViolation →
        postProducts db now p = (.conflict, db) ∧
        (postProducts db now p).1.status = 409) ∧
    (∀ db now p e, intFalsy p.company_id = false → strFalsy p.title = false →
        insertProduct db now p = .error e → e ≠ .uniqueViolation →
        postProducts db now p = (.serverError, db) ∧
        (postProducts db now p).1.status = 500) := by
  refine ⟨?_, ?_, ?_⟩
  · intro db now p h
    have hval : (intFalsy p.company_id || strFalsy p.title) = true := by
      rcases h with h | h <;> simp [h, intFalsy, strFalsy]
    constructor
    · simp [postProducts, hval]
    · simp [postProducts, hval, ProductResp.status]
  · intro db now p hc ht hins
    constructor
    · simp [postProducts, hc, ht, hins]
    · simp [postProducts, hc, ht, hins, ProductResp.status]
  · intro db now p e hc ht hins hne
    have : postProducts db now p = (.serverError, db) := by
      simp only [postProducts, hc, ht, hins]
      cases e with
      | uniqueViolation => exact absurd rfl hne
      | notNullViolation => simp
      | fkViolation => simp
    exact ⟨this, by rw [this]; rfl⟩

/-- Witness for C7: a titleless request is rejected with 400, a duplicate
(company_id, shopify_product_id) pair gives 409, and a dangling company
foreign key gives 500. -/
theorem single_product_statuses_witness :
    (postProducts exDB "t1" exNoTitle = (.badRequest, exDB) ∧
      (postProducts exDB "t1" exNoTitle).1.status = 400) ∧
    (postProducts exDB1 "t2" exP2 = (.conflict, exDB1) ∧
      (postProducts exDB1 "t2" exP2).1.status = 409) ∧
    (postProducts exDB "t1" exBadFk = (.serverError, exDB) ∧
      (postProducts exDB "t1" exBadFk).1.status = 500) :=
  ⟨single_product_statuses.1 exDB "t1" exNoTitle (Or.inr rfl),
   single_product_statuses.2.1 exDB1 "t2" exP2 (by decide) (by decide)
     (by decide),
   single_product_statuses.2.2 exDB "t1" exBadFk .fkViolation (by decide)
     (by decide) (by decide) (by decide)⟩

/-- C10: the company status patch validates nothing: it never answers 400,
and with is_active absent from the body it still executes the update,
storing SQL NULL in is_active; when the id exists it answers 200 with the
updated row. -/
theorem patch_company_status_no_validation :
    (∀ db now id b, (patchCompanyStatus db now id b).1.status ≠ 400) ∧
    (∀ db now id r, db.companies.find? (fun c => c.id == id) = some r →
        patchCompanyStatus db now id none =
          (.ok { r with is_active := none, updated_at := now },
           { db with companies := db.companies.map (fun x =>
               if x.id == id then
                 { x with is_active := none, updated_at := now }
               else x) }) ∧
        (patchCompanyStatus db now id none).1.status = 200) := by
  constructor
  · intro db now id b
    simp only [patchCompanyStatus]
    split <;> simp [PatchStatusResp.status]
  · intro db now id r h
    have heq : patchCompanyStatus db now id none =
        (.ok { r with is_active := none, updated_at := now },
         { db with companies := db.companies.map (fun x =>
             if x.id == id then
               { x with is_active := none, updated_at := now }
             else x) }) := by
      simp [patchCompanyStatus, h]
    exact ⟨heq, by rw [heq]; rfl⟩

/-- Witness for C10: patching company 1 of `exDB` with a body that omits
is_active succeeds with 200 and nulls the flag. -/
theorem patch_company_status_no_validation_witness :
    patchCompanyStatus exDB "t3" 1 none =
      (.ok { acmeCompany with is_active := none, updated_at := "t3" },
       { exDB with companies := exDB.companies.map (fun x =>
           if x.id == 1 then
             { x with is_active := none, updated_at := "t3" }
           else x) }) ∧
    (patchCompanyStatus exDB "t3" 1 none).1.status = 200 :=
  patch_company_status_no_validation.2 exDB "t3" 1 acmeCompany (by decide)

theorem intFalsy_some_ne (c : Int) (hc0 : c ≠ 0) :
    intFalsy (some c) = false :=
  beq_eq_false_iff_ne.mpr hc0

theorem configs_find_none (l : List ConfigRow) (c : Int)
    (habs : ∀ r ∈ l, r.company_id ≠ c) :
    l.find? (fun r => r.company_id == c) = none :=
  List.find?_eq_none.mpr (fun x hx => by
    simp only [beq_iff_eq]
    exact habs x hx)

theorem postMonitoringConfigs_insert (db : DB) (now : String) (c : Int)
    (req : ConfigReq) (h1 : req.company_id = some c) (hc0 : c ≠ 0)
    (habs : ∀ r ∈ db.configs, r.company_id ≠ c)
    (hco : db.companies.any (fun co => co.id == c) = true) :
    postMonitoringConfigs db now req =
      (.ok { id := db.nextConfigId, company_id := c,
             days_back := orElseInt req.days_back 7,
             max_products := orElseInt req.max_products 50,
             check_frequency := orElseStr req.check_frequency "weekly",
             is_enabled := orUndefBool req.is_enabled true,
             last_monitored := none, created_at := now, updated_at := now },
       { db with
           configs := db.configs ++
             [{ id := db.nextConfigId, company_id := c,
                days_back := orElseInt req.days_back 7,
                max_products := orElseInt req.max_products 50,
                check_frequency := orElseStr req.check_frequency "weekly",
                is_enabled := orUndefBool req.is_enabled true,
                last_monitored := none, created_at := now,
                updated_at := now }]
           nextConfigId := db.nextConfigId + 1 }) := by
  have hfind := configs_find_none db.configs c habs
  simp [postMonitoringConfigs, h1, intFalsy_some_ne c hc0, hfind, hco]

theorem postMonitoringConfigs_update (db : DB) (now : String) (c : Int)
    (req : ConfigReq) (r : ConfigRow) (h1 : req.company_id = some c)
    (hc0 : c ≠ 0)
    (hfind : db.configs.find? (fun x => x.company_id == c) = some r) :
    postMonitoringConfigs db now req =
      (.ok { r with
               days_back := orElseInt req.days_back 7,
               max_products := orElseInt req.max_products 50,
               check_frequency := orElseStr req.check_frequency "weekly",
               is_enabled := orUndefBool req.is_enabled true,
               updated_at := now },
       { db with configs := db.configs.map (fun x =>
           if x.company_id == c then
             { x with
                 days_back := orElseInt req.days_back 7,
                 max_products := orElseInt req.max_products 50,
                 check_frequency := orElseStr req.check_frequency "weekly",
                 is_enabled := orUndefBool req.is_enabled true,
                 updated_at := now }
           else x) }) := by
  simp [postMonitoringConfigs, h1, intFalsy_some_ne c hc0, hfind]

theorem configs_map_update (l : List ConfigRow) (r : ConfigRow) (c : Int)
    (habs : ∀ x ∈ l, x.company_id ≠ c) (hr : r.company_id = c)
    (f : ConfigRow → ConfigRow) :
    (l ++ [r]).map (fun x => if x.company_id == c then f x else x) =
      l ++ [f r] := by
  rw [List.map_append]
  congr 1
  · rw [List.map_congr_left (g := id) ?_, List.map_id]
    intro x hx
    simp [beq_eq_false_iff_ne.mpr (habs x hx)]
  · simp [hr]

theorem configs_filter_single (l : List ConfigRow) (r : ConfigRow) (c : Int)
    (habs : ∀ x ∈ l, x.company_id ≠ c) (hr : r.company_id = c) :
    (l ++ [r]).filter (fun x => x.company_id == c) = [r] := by
  rw [List.filter_append]
  have h1 : l.filter (fun x => x.company_id == c) = [] :=
    List.filter_eq_nil_iff.mpr (fun x hx => by
      simp only [beq_iff_eq]
      exact habs x hx)
  rw [h1]
  simp [List.filter, hr]

/-- C4: the monitoring-config save is a single insert-or-update keyed by the
unique company_id with defaults days_back 7, max_products 50,
check_frequency "weekly", is_enabled true for omitted fields: with no row
present for the company a defaulted row is inserted, and a second call with
explicit (truthy) values updates that same row in place — same id, same
created_at, refreshed updated_at — leaving exactly one row for the
company_id, carrying the values of the second call. -/
theorem monitoring_config_upsert :
    ∀ db now1 now2 c (req1 req2 : ConfigReq) d2 m2 f2 b2,
      req1.company_id = some c → req2.company_id = some c → c ≠ 0 →
      (∀ r ∈ db.configs, r.company_id ≠ c) →
      db.companies.any (fun co => co.id == c) = true →
      req1.days_back = none → req1.max_products = none →
      req1.check_frequency = none → req1.is_enabled = none →
      req2.days_back = some d2 → d2 ≠ 0 →
      req2.max_products = some m2 → m2 ≠ 0 →
      req2.check_frequency = some f2 → f2 ≠ "" →
      req2.is_enabled = some b2 →
      postMonitoringConfigs db now1 req1 =
        (.ok (mcDefaultRow db.nextConfigId c now1),
         { db with
             configs := db.configs ++ [mcDefaultRow db.nextConfigId c now1]
             nextConfigId := db.nextConfigId + 1 }) ∧
      postMonitoringConfigs
          { db with
              configs := db.configs ++ [mcDefaultRow db.nextConfigId c now1]
              nextConfigId := db.nextConfigId + 1 } now2 req2 =
        (.ok { mcDefaultRow db.nextConfigId c now1 with
                 days_back := d2, max_products := m2, check_frequency := f2,
                 is_enabled := b2, updated_at := now2 },
         { db with
             configs := db.configs ++
               [{ mcDefaultRow db.nextConfigId c now1 with
                    days_back := d2, max_products := m2,
                    check_frequency := f2, is_enabled := b2,
                    updated_at := now2 }]
             nextConfigId := db.nextConfigId + 1 }) ∧
      (db.configs ++
          [{ mcDefaultRow db.nextConfigId c now1 with
               days_back := d2, max_products := m2, check_frequency := f2,
               is_enabled := b2, updated_at := now2 }]).filter
          (fun x => x.company_id == c) =
        [{ mcDefaultRow db.nextConfigId c now1 with
             days_back := d2, max_products := m2, check_frequency := f2,
             is_enabled := b2, updated_at := now2 }] := by
  intro db now1 now2 c req1 req2 d2 m2 f2 b2 h1c h2c hc0 habs hco
  intro h1d h1m h1f h1e h2d hd2 h2m hm2 h2f hf2 h2e
  refine ⟨?_, ?_, ?_⟩
  · have h := postMonitoringConfigs_insert db now1 c req1 h1c hc0 habs hco
    rw [h1d, h1m, h1f, h1e] at h
    simpa [mcDefaultRow, orElseInt, orElseStr, orUndefBool] using h
  · have hfind2 : ({ db with
        configs := db.configs ++ [mcDefaultRow db.nextConfigId c now1]
        nextConfigId := db.nextConfigId + 1 } : DB).configs.find?
          (fun x => x.company_id == c) =
        some (mcDefaultRow db.nextConfigId c now1) := by
      show (db.configs ++ [mcDefaultRow db.nextConfigId c now1]).find? _ = _
      rw [List.find?_append, configs_find_none db.configs c habs,
        Option.none_or]
      simp [List.find?, mcDefaultRow]
    have h := postMonitoringConfigs_update _ now2 c req2 _ h2c hc0 hfind2
    rw [h2d, h2m, h2f, h2e] at h
    simp only [orElseInt, orElseStr, orUndefBool,
      beq_eq_false_iff_ne.mpr hd2, beq_eq_false_iff_ne.mpr hm2,
      beq_eq_false_iff_ne.mpr hf2, if_false, Bool.false_eq_true] at h
    rw [configs_map_update db.configs (mcDefaultRow db.nextConfigId c now1) c
      habs rfl] at h
    exact h
  · exact configs_filter_single db.configs _ c habs rfl

/-- Witness for C4: company 1 of `exDB`, first call with everything
omitted, second call with days_back 14, max_products 100, "daily", false. -/
theorem monitoring_config_upsert_witness :
    postMonitoringConfigs exDB "t1" cfgOmit =
      (.ok (mcDefaultRow exDB.nextConfigId 1 "t1"),
       { exDB with
           configs := exDB.configs ++ [mcDefaultRow exDB.nextConfigId 1 "t1"]
           nextConfigId := exDB.nextConfigId + 1 }) ∧
    postMonitoringConfigs
        { exDB with
            configs := exDB.configs ++ [mcDefaultRow exDB.nextConfigId 1 "t1"]
            nextConfigId := exDB.nextConfigId + 1 } "t2" cfgSecond =
      (.ok { mcDefaultRow exDB.nextConfigId 1 "t1" with
               days_back := 14, max_products := 100,
               check_frequency := "daily", is_enabled := false,
               updated_at := "t2" },
       { exDB with
           configs := exDB.configs ++
             [{ mcDefaultRow exDB.nextConfigId 1 "t1" with
                  days_back := 14, max_products := 100,
                  check_frequency := "daily", is_enabled := false,
                  updated_at := "t2" }]
           nextConfigId := exDB.nextConfigId + 1 }) ∧
    (exDB.configs ++
        [{ mcDefaultRow exDB.nextConfigId 1 "t1" with
             days_back := 14, max_products := 100, check_frequency := "daily",
             is_enabled := false, updated_at := "t2" }]).filter
        (fun x => x.company_id == 1) =
      [{ mcDefaultRow exDB.nextConfigId 1 "t1" with
           days_back := 14, max_products := 100, check_frequency := "daily",
           is_enabled := false, updated_at := "t2" }] :=
  monitoring_config_upsert exDB "t1" "t2" 1 cfgOmit cfgSecond 14 100 "daily"
    false rfl rfl (by decide) (by decide) (by decide) rfl rfl rfl rfl rfl
    (by decide) rfl (by decide) rfl (by decide) rfl

/-- C9: the monitoring-config save defaults any falsy provided value, not
only omitted ones, for every field except is_enabled: explicit days_back 0,
max_products 0 and check_frequency "" store 7, 50 and "weekly" while an
explicit is_enabled false is preserved; and on the update path an omitted
field overwrites the stored value with its default instead of preserving
it, with omitted is_enabled becoming true. -/
theorem monitoring_config_falsy_defaults :
    (∀ db now c (req : ConfigReq), req.company_id = some c → c ≠ 0 →
        (∀ r ∈ db.configs, r.company_id ≠ c) →
        db.companies.any (fun co => co.id == c) = true →
        req.days_back = some 0 → req.max_products = some 0 →
        req.check_frequency = some "" → req.is_enabled = some false →
        (postMonitoringConfigs db now req).1 =
          .ok { mcDefaultRow db.nextConfigId c now with
                  is_enabled := false }) ∧
    (∀ db now c (req : ConfigReq) r, req.company_id = some c → c ≠ 0 →
        db.configs.find? (fun x => x.company_id == c) = some r →
        req.days_back = none → req.max_products = none →
        req.check_frequency = none → req.is_enabled = none →
        (postMonitoringConfigs db now req).1 =
          .ok { r with
                  days_back := 7, max_products := 50,
                  check_frequency := "weekly", is_enabled := true,
                  updated_at := now }) := by
  constructor
  · intro db now c req h1 hc0 habs hco hd hm hf he
    have h := postMonitoringConfigs_insert db now c req h1 hc0 habs hco
    rw [hd, hm, hf, he] at h
    rw [h]
    simp [mcDefaultRow, orElseInt, orElseStr, orUndefBool]
  · intro db now c req r h1 hc0 hfind hd hm hf he
    have h := postMonitoringConfigs_update db now c req r h1 hc0 hfind
    rw [hd, hm, hf, he] at h
    rw [h]
    rfl

/-- Witness for C9: falsy explicit values are replaced by defaults on
insert, and an omitted field overwrites the stored value on update. -/
theorem monitoring_config_falsy_defaults_witness :
    ((postMonitoringConfigs exDB "t1" cfgFalsy).1 =
      .ok { mcDefaultRow exDB.nextConfigId 1 "t1" with is_enabled := false }) ∧
    ((postMonitoringConfigs cfgDB9 "t2" cfgOmit).1 =
      .ok { cfgRow9 with
              days_back := 7, max_products := 50,
              check_frequency := "weekly", is_enabled := true,
              updated_at := "t2" }) :=
  ⟨monitoring_config_falsy_defaults.1 exDB "t1" 1 cfgFalsy rfl (by decide)
     (by decide) (by decide) rfl rfl rfl rfl,
   monitoring_config_falsy_defaults.2 cfgDB9 "t2" 1 cfgOmit cfgRow9 rfl
     (by decide) (by decide) rfl rfl rfl rfl⟩

/-- C5: the schema bootstrap is safe to call repeatedly: on an
already-correct schema it performs no side effects (the schema state is
returned unchanged), one call always yields a correct schema, calling it
twice in a row produces the identical schema state both times, and the
response is always the fixed success summary — in particular the second
call never errors. -/
theorem setup_database_idempotent :
    (∀ s : Schema, s.Correct → (setupDatabase s).2 = s) ∧
    (∀ s : Schema, ((setupDatabase s).2).Correct) ∧
    (∀ s : Schema,
        (setupDatabase (setupDatabase s).2).2 = (setupDatabase s).2) ∧
    (∀ s : Schema, (setupDatabase s).1 =
        { message := "Database setup completed successfully"
          companiesTable := "Ready"
          monitoringConfigsTable := "Ready"
          productsTable := "Ready with full Shopify schema"
          activeCompaniesView := "Created"
          idx := "Created for better performance" }) := by
  have ha : ∀ s : Schema, s.Correct → (setupDatabase s).2 = s := by
    intro s hs
    obtain ⟨hc, hm, hp, hv⟩ := hs
    cases s with
    | mk ct mt pt idx vw =>
      obtain ⟨cv, hcv⟩ := Option.isSome_iff_exists.mp hc
      obtain ⟨mv, hmv⟩ := Option.isSome_iff_exists.mp hm
      obtain ⟨pv, hpv⟩ := Option.isSome_iff_exists.mp hp
      simp only at hv
      subst hcv hmv hpv hv
      rfl
  have hb : ∀ s : Schema, ((setupDatabase s).2).Correct := by
    intro s
    cases s with
    | mk ct mt pt idx vw =>
      cases ct <;> cases mt <;> cases pt <;>
        simp [setupDatabase, Schema.Correct]
  exact ⟨ha, hb, fun s => ha _ (hb s), fun s => rfl⟩

/-- Witness for C5 at the fully-provisioned schema. -/
theorem setup_database_idempotent_witness :
    (setupDatabase fullSchema).2 = fullSchema :=
  setup_database_idempotent.1 fullSchema ⟨rfl, rfl, rfl, rfl⟩
